import Mathlib

/-!
Shallow embedding of the core of `git-identity-switcher` (src/model.py),
the persistence routine (`load_identities` / `save_identities`) and the
identity application routine (`apply_identity`), together with theorems
settling the specification claims about them.

Modelling choices:
* JSON documents are modelled by the inductive `Json`; the backing file is
  modelled by `FileContent`, which distinguishes a missing file, a file whose
  content fails JSON parsing, and a file holding a parsed JSON document
  (the stdlib `json.dump` / `json.load` pair round-trips exactly on the
  string/list/object values this program stores, so the store is embedded at
  the parsed-value level).
* Python exceptions are the `PyError` inductive; a function that can raise
  returns `Except PyError _`.
* The side effects of `apply_identity` are made explicit: the shell lines it
  hands to `run` (in order) and its outcome are collected in `ApplyResult`.
  The `messagebox.showerror` + early-`return` path for a missing key file is
  embedded as the `sshKeyNotFound` error outcome carrying the resolved path
  (the sibling model variant imported by `views.py` raises
  `SSHKeyNotFoundError` there), and the final `messagebox.showinfo` is
  embedded as the `Summary` success value it displays.
* `os.path.exists` is an abstract parameter `path_exists : String → Bool`;
  `sys.platform` is the string parameter `platform`.
-/

namespace GitIdentitySwitcher

/-- A JSON value, as produced by Python's `json.load`. -/
inductive Json where
  | null : Json
  | bool (b : Bool) : Json
  | num (n : Int) : Json
  | str (s : String) : Json
  | arr (elems : List Json) : Json
  | obj (fields : List (String × Json)) : Json

/-- Python dictionary lookup on an object's field list (keys are unique). -/
def lookupField : List (String × Json) → String → Option Json
  | [], _ => none
  | (k, v) :: rest, key => if k = key then some v else lookupField rest key

/-- Python's `dict.get(key, default)`. -/
def getD (fields : List (String × Json)) (key : String) (dflt : Json) : Json :=
  match lookupField fields key with
  | some v => v
  | none => dflt

/-- Errors the embedded routines can raise or report. -/
inductive PyError where
  | jsonDecodeError
  | attributeError
  | keyError (field : String)
  | typeError
  | sshKeyNotFound (path : String)
  deriving DecidableEq

/-- State of the backing `identities.json` file. -/
inductive FileContent where
  | absent
  | invalidJson
  | json (doc : Json)

/-- The document `load_identities` writes when the file is missing:
`json.dump({"identities": []}, f)`. -/
def emptyDoc : Json := .obj [("identities", .arr [])]

/-- Embedding of `model.load_identities` (src/model.py lines 56-72).
Returns the value of `data.get("identities", [])` and the file state after
the call. A file whose text is not valid JSON makes `json.load` raise
`json.JSONDecodeError`; a valid JSON document that is not an object makes
`data.get` raise `AttributeError`. Nothing else is checked: the `identities`
value is returned as-is, whatever its shape. -/
def load_identities : FileContent → Except PyError (Json × FileContent)
  | .absent => .ok (.arr [], .json emptyDoc)
  | .invalidJson => .error .jsonDecodeError
  | .json (Json.obj fields) =>
      .ok (getD fields "identities" (.arr []), .json (.obj fields))
  | .json _ => .error .attributeError

/-- Embedding of `model.save_identities` (src/model.py lines 75-82):
`json.dump({"identities": identities}, f)`. -/
def save_identities (identities : Json) : FileContent :=
  .json (.obj [("identities", identities)])

/-- The values `apply_identity` reports back on success
(`messagebox.showinfo`: profile name, Git name, Git email). -/
structure Summary where
  profile_name : String
  git_name : String
  git_email : String
  deriving DecidableEq

/-- The observable behaviour of one `apply_identity` call: the shell command
lines handed to `run`, in order, and the outcome. -/
structure ApplyResult where
  commands : List String
  outcome : Except PyError Summary

/-- Embedding of `os.path.expanduser` with `HOME = home` (assumed to have no
trailing slash): a bare `~` becomes `home`, a leading `~/` is replaced by
`home/`; other paths, including `~user` forms for which no user lookup is
modelled, are returned unchanged. -/
def expanduser (home : String) (path : String) : String :=
  match path.data with
  | ['~'] => home
  | '~' :: '/' :: rest => home ++ String.mk ('/' :: rest)
  | _ => path

/-- Python's `identity[key]` followed by use as a `str`: raises `KeyError`
when the key is absent and `TypeError` downstream when the value is not a
string. -/
def getStr (fields : List (String × Json)) (key : String) : Except PyError String :=
  match lookupField fields key with
  | none => .error (.keyError key)
  | some (Json.str s) => .ok s
  | some _ => .error .typeError

/-- Shell line `"ssh-add -D"` (src/model.py line 109). -/
def sshAddClearCmd : String := "ssh-add -D"

/-- Shell line built by `'ssh-add "{0}"'.format(ssh_key)` (line 111). -/
def sshAddCmd (key : String) : String := "ssh-add \"" ++ key ++ "\""

/-- Shell line built by `'git config --global user.name "{0}"'.format(git_name)`
(line 114). -/
def gitNameCmd (n : String) : String :=
  "git config --global user.name \"" ++ n ++ "\""

/-- Shell line built by
`'git config --global user.email "{0}"'.format(git_email)` (line 115). -/
def gitEmailCmd (e : String) : String :=
  "git config --global user.email \"" ++ e ++ "\""

/-- Shell line built by
`'git config --global core.sshCommand "ssh -i \\"{0}\\""'.format(ssh_key)`
(line 118): the key is wrapped in backslash-escaped double quotes inside the
outer-quoted argument. -/
def sshCommandCmd (key : String) : String :=
  "git config --global core.sshCommand \"ssh -i \\\"" ++ key ++ "\\\"\""

/-- Escape a string for inclusion between double quotes in a POSIX shell
word: each `"` becomes `\"`. Used to relate the raw fifth command line to
the `core.sshCommand` value the shell hands to `git config`. -/
def dqEscape (s : String) : String :=
  String.mk (s.data.foldr (fun c acc => if c = '"' then '\\' :: '"' :: acc else c :: acc) [])

/-- Embedding of `model.apply_identity` (src/model.py lines 85-126).
Field reads (`ssh_key`, `git_name`, `git_email`) happen first;
`os.path.expanduser` resolves the key path; a failed `os.path.exists` check
shows the error carrying the resolved path and returns with no command run.
Otherwise, on non-`win32` platforms the two `ssh-add` lines run first, then
unconditionally the three `git config --global` lines; finally the summary
(profile `name`, Git name, Git email) is reported. -/
def apply_identity (path_exists : String → Bool) (home platform : String)
    (identity : List (String × Json)) : ApplyResult :=
  match getStr identity "ssh_key" with
  | .error e => ⟨[], .error e⟩
  | .ok ssh_key_raw =>
    let ssh_key := expanduser home ssh_key_raw
    match getStr identity "git_name" with
    | .error e => ⟨[], .error e⟩
    | .ok git_name =>
      match getStr identity "git_email" with
      | .error e => ⟨[], .error e⟩
      | .ok git_email =>
        if path_exists ssh_key then
          let agentCmds : List String :=
            if platform = "win32" then []
            else [sshAddClearCmd, sshAddCmd ssh_key]
          let cmds : List String := agentCmds ++
            [gitNameCmd git_name, gitEmailCmd git_email, sshCommandCmd ssh_key]
          match getStr identity "name" with
          | .error e => ⟨cmds, .error e⟩
          | .ok nm => ⟨cmds, .ok ⟨nm, git_name, git_email⟩⟩
        else ⟨[], .error (.sshKeyNotFound ssh_key)⟩

/-- A fully populated profile record, with the four string fields the code
reads and writes (`name`, `git_name`, `git_email`, `ssh_key` — the key names
used by `model.apply_identity`, `views._create_identity` and
`config_dialog._on_save`). -/
structure Profile where
  name : String
  git_name : String
  git_email : String
  ssh_key : String
  deriving DecidableEq

/-- The dictionary a `Profile` is stored as, field order as built by
`config_dialog._on_save` / `views._create_identity`. -/
def Profile.toRecord (p : Profile) : List (String × Json) :=
  [("name", .str p.name), ("git_name", .str p.git_name),
   ("git_email", .str p.git_email), ("ssh_key", .str p.ssh_key)]

/-- A `Profile` as a JSON object. -/
def Profile.toJson (p : Profile) : Json := .obj p.toRecord

/-- Read a `Profile` back from a JSON value, requiring all four fields to be
present as strings. -/
def Profile.fromJson : Json → Option Profile
  | Json.obj fields =>
    match lookupField fields "name", lookupField fields "git_name",
          lookupField fields "git_email", lookupField fields "ssh_key" with
    | some (Json.str n), some (Json.str gn), some (Json.str ge), some (Json.str k) =>
        some ⟨n, gn, ge, k⟩
    | _, _, _, _ => none
  | _ => none

/-- Decode a list of JSON values as profiles, failing if any record fails. -/
def decodeProfiles : List Json → Option (List Profile)
  | [] => some []
  | j :: rest =>
    match Profile.fromJson j, decodeProfiles rest with
    | some p, some ps => some (p :: ps)
    | _, _ => none

/-- Unfolding of `apply_identity` on a fully populated profile record: the
field reads all succeed, and everything hinges on the existence check of the
resolved key path. -/
theorem apply_toRecord (pe : String → Bool) (home platform : String) (p : Profile) :
    apply_identity pe home platform p.toRecord =
      if pe (expanduser home p.ssh_key) then
        ⟨(if platform = "win32" then []
          else [sshAddClearCmd, sshAddCmd (expanduser home p.ssh_key)]) ++
          [gitNameCmd p.git_name, gitEmailCmd p.git_email,
           sshCommandCmd (expanduser home p.ssh_key)],
         .ok ⟨p.name, p.git_name, p.git_email⟩⟩
      else ⟨[], .error (.sshKeyNotFound (expanduser home p.ssh_key))⟩ := rfl

/-- Expanding a path that starts with the `~/` shorthand replaces the tilde
with the home directory. -/
theorem expanduser_tilde_slash (home rest : String) :
    expanduser home ("~/" ++ rest) = home ++ "/" ++ rest := by
  obtain ⟨l⟩ := rest
  obtain ⟨hl⟩ := home
  show String.mk (hl ++ ('/' :: l)) = String.mk ((hl ++ ['/']) ++ l)
  rw [List.append_assoc]
  rfl

/-- Reading a profile back from its JSON object recovers it field-for-field. -/
theorem fromJson_toJson (p : Profile) : Profile.fromJson p.toJson = some p := rfl

/-- Decoding an encoded profile list recovers the list, order preserved. -/
theorem decodeProfiles_map_toJson (ps : List Profile) :
    decodeProfiles (ps.map Profile.toJson) = some ps := by
  induction ps with
  | nil => rfl
  | cons p rest ih => simp [decodeProfiles, fromJson_toJson, ih]

/-- C1: for every profile whose resolved `ssh_key` path does not refer to an
existing file, `apply_identity` fails with `sshKeyNotFound` carrying the
resolved path and hands zero command lines to `run`: no ssh-agent mutation
and no git-config mutation occurs. -/
theorem apply_missing_key_aborts (pe : String → Bool) (home platform : String)
    (p : Profile) (h : pe (expanduser home p.ssh_key) = false) :
    apply_identity pe home platform p.toRecord =
      ⟨[], .error (.sshKeyNotFound (expanduser home p.ssh_key))⟩ := by
  rw [apply_toRecord]
  simp [h]

/-- Witness for C1 at a concrete profile whose key file does not exist. -/
theorem apply_missing_key_aborts_witness :
    apply_identity (fun _ => false) "/home/u" "linux"
        (Profile.toRecord ⟨"Work", "Ada Lovelace", "ada@example.com", "~/keys/id_ed25519"⟩) =
      ⟨[], .error (.sshKeyNotFound "/home/u/keys/id_ed25519")⟩ :=
  apply_missing_key_aborts (fun _ => false) "/home/u" "linux"
    ⟨"Work", "Ada Lovelace", "ada@example.com", "~/keys/id_ed25519"⟩ rfl

/-- C2 counterexample: a backing file with invalid JSON makes `load_identities`
raise `json.JSONDecodeError` rather than return an empty collection, and a
file holding `{"identities": "not-a-list"}` makes it return the string
`"not-a-list"` as-is, which is not the empty collection. -/
theorem load_forgiving_read_cex :
    load_identities .invalidJson = .error .jsonDecodeError
    ∧ load_identities (.json (.obj [("identities", .str "not-a-list")])) =
        .ok (.str "not-a-list", .json (.obj [("identities", .str "not-a-list")]))
    ∧ Json.str "not-a-list" ≠ Json.arr [] :=
  ⟨rfl, rfl, fun h => nomatch h⟩

/-- C2 amended: on invalid JSON, `load_identities` propagates the JSON parse
error (it raises); on a JSON document whose `identities` field holds any
value whatsoever, it returns that value unchanged — a non-array value is not
replaced by an empty collection. -/
theorem load_forgiving_read_amended (v : Json) :
    load_identities .invalidJson = .error .jsonDecodeError
    ∧ load_identities (.json (.obj [("identities", v)])) =
        .ok (v, .json (.obj [("identities", v)])) :=
  ⟨rfl, rfl⟩

/-- C3 counterexample: a profile with empty `git_name` and non-empty
`git_email` still has the name-set command issued, namely the line
`git config --global user.name ""`. -/
theorem apply_name_set_unconditional_cex :
    gitNameCmd "" ∈ (apply_identity (fun _ => true) "/home/u" "linux"
        (Profile.toRecord ⟨"Personal", "", "me@example.com", "/home/u/.ssh/id"⟩)).commands
    ∧ gitNameCmd "" = "git config --global user.name \"\"" :=
  ⟨by decide, rfl⟩

/-- C3 amended: for every profile with an existing key file, `apply_identity`
issues both the name-set and the email-set commands unconditionally, on every
platform, regardless of whether `git_name` or `git_email` is empty. -/
theorem apply_name_email_always_set (pe : String → Bool) (home platform : String)
    (p : Profile) (h : pe (expanduser home p.ssh_key) = true) :
    gitNameCmd p.git_name ∈ (apply_identity pe home platform p.toRecord).commands
    ∧ gitEmailCmd p.git_email ∈ (apply_identity pe home platform p.toRecord).commands := by
  rw [apply_toRecord]
  by_cases hp : platform = "win32" <;> simp [h, hp]

/-- Witness for the amended C3 at a concrete profile with empty `git_name`. -/
theorem apply_name_email_always_set_witness :
    gitNameCmd "" ∈ (apply_identity (fun _ => true) "/home/u" "win32"
        (Profile.toRecord ⟨"P", "", "me@example.com", "/home/u/.ssh/id"⟩)).commands
    ∧ gitEmailCmd "me@example.com" ∈ (apply_identity (fun _ => true) "/home/u" "win32"
        (Profile.toRecord ⟨"P", "", "me@example.com", "/home/u/.ssh/id"⟩)).commands :=
  apply_name_email_always_set (fun _ => true) "/home/u" "win32"
    ⟨"P", "", "me@example.com", "/home/u/.ssh/id"⟩ rfl

/-- C4: on a non-Windows platform, for every profile with an existing key
file, `apply_identity` issues exactly the sequence agent-clear, agent-add,
name-set, email-set, sshCommand-set, in that order; and the resolved key
path `/home/u/My Keys/id_ed25519` is quoted so that the final command line
is the word `git config --global core.sshCommand` followed by the
double-quoted, backslash-escaped form of the value
`ssh -i "/home/u/My Keys/id_ed25519"` — i.e. that value, with the space path
inside quotes, is what the shell hands to `git config`. -/
theorem apply_command_order_and_quoting (pe : String → Bool) (home platform : String)
    (p : Profile) (hplat : platform ≠ "win32")
    (h : pe (expanduser home p.ssh_key) = true) :
    (apply_identity pe home platform p.toRecord).commands =
      [sshAddClearCmd, sshAddCmd (expanduser home p.ssh_key), gitNameCmd p.git_name,
       gitEmailCmd p.git_email, sshCommandCmd (expanduser home p.ssh_key)]
    ∧ sshCommandCmd "/home/u/My Keys/id_ed25519" =
        "git config --global core.sshCommand \"" ++
          dqEscape "ssh -i \"/home/u/My Keys/id_ed25519\"" ++ "\"" := by
  refine ⟨?_, by decide⟩
  rw [apply_toRecord]
  simp [h, hplat]

/-- Witness for C4 at a concrete profile whose key path contains a space. -/
theorem apply_command_order_and_quoting_witness :
    (apply_identity (fun _ => true) "/home/u" "linux"
        (Profile.toRecord ⟨"Work", "Ada", "ada@example.com", "/home/u/My Keys/id_ed25519"⟩)).commands =
      [sshAddClearCmd, sshAddCmd "/home/u/My Keys/id_ed25519", gitNameCmd "Ada",
       gitEmailCmd "ada@example.com", sshCommandCmd "/home/u/My Keys/id_ed25519"]
    ∧ sshCommandCmd "/home/u/My Keys/id_ed25519" =
        "git config --global core.sshCommand \"" ++
          dqEscape "ssh -i \"/home/u/My Keys/id_ed25519\"" ++ "\"" :=
  apply_command_order_and_quoting (fun _ => true) "/home/u" "linux"
    ⟨"Work", "Ada", "ada@example.com", "/home/u/My Keys/id_ed25519"⟩ (by decide) rfl

/-- C5 counterexample: a record that carries the key path only under the
field name `ssh_key_path` (as the PySide6 inline card editor writes it)
makes `apply_identity` raise `KeyError("ssh_key")` without issuing any
command — that field's value is never resolved or used. -/
theorem apply_ssh_key_path_field_cex :
    apply_identity (fun _ => true) "/home/u" "linux"
      [("name", .str "Work"), ("git_name", .str "Ada"),
       ("git_email", .str "ada@example.com"), ("ssh_key_path", .str "~/id_ed25519")] =
      ⟨[], .error (.keyError "ssh_key")⟩ := rfl

/-- C5 amended: the SSH key path is carried under the field named `ssh_key`
(the name `apply_identity` reads and the create/save paths write; the
PySide6 card editor's `ssh_key_path` is an inconsistency), and
`apply_identity` resolves that field's value by expanding a leading `~` to
the home directory before any use: the path reaching the issued commands is
the resolved one. -/
theorem apply_ssh_key_field_resolved (pe : String → Bool) (home platform : String)
    (p : Profile) (h : pe (expanduser home p.ssh_key) = true) :
    lookupField p.toRecord "ssh_key" = some (.str p.ssh_key)
    ∧ sshCommandCmd (expanduser home p.ssh_key)
        ∈ (apply_identity pe home platform p.toRecord).commands
    ∧ (∀ rest : String, expanduser home ("~/" ++ rest) = home ++ "/" ++ rest)
    ∧ expanduser home "~" = home := by
  refine ⟨rfl, ?_, fun rest => expanduser_tilde_slash home rest, rfl⟩
  rw [apply_toRecord]
  by_cases hp : platform = "win32" <;> simp [h, hp]

/-- Witness for the amended C5 at a concrete profile with a `~/` key path. -/
theorem apply_ssh_key_field_resolved_witness :
    lookupField (Profile.toRecord ⟨"W", "A", "a@x", "~/.ssh/id"⟩) "ssh_key" =
        some (.str "~/.ssh/id")
    ∧ sshCommandCmd (expanduser "/home/u" "~/.ssh/id")
        ∈ (apply_identity (fun _ => true) "/home/u" "linux"
            (Profile.toRecord ⟨"W", "A", "a@x", "~/.ssh/id"⟩)).commands
    ∧ (∀ rest : String, expanduser "/home/u" ("~/" ++ rest) = "/home/u" ++ "/" ++ rest)
    ∧ expanduser "/home/u" "~" = "/home/u" :=
  apply_ssh_key_field_resolved (fun _ => true) "/home/u" "linux"
    ⟨"W", "A", "a@x", "~/.ssh/id"⟩ rfl

/-- C6: loading immediately after saving any profile sequence returns it
field-for-field with order preserved — the saved document's `identities`
value comes back exactly, and decoding it recovers the original profiles. -/
theorem load_save_roundtrip (ps : List Profile) :
    load_identities (save_identities (Json.arr (ps.map Profile.toJson))) =
      .ok (Json.arr (ps.map Profile.toJson),
           save_identities (Json.arr (ps.map Profile.toJson)))
    ∧ decodeProfiles (ps.map Profile.toJson) = some ps :=
  ⟨rfl, decodeProfiles_map_toJson ps⟩

/-- C7: for every profile that passes the key-existence check,
`apply_identity` ends by reporting a summary carrying the profile name, the
Git name and the Git email that were applied. -/
theorem apply_returns_summary (pe : String → Bool) (home platform : String)
    (p : Profile) (h : pe (expanduser home p.ssh_key) = true) :
    (apply_identity pe home platform p.toRecord).outcome =
      .ok ⟨p.name, p.git_name, p.git_email⟩ := by
  rw [apply_toRecord]
  simp [h]

/-- Witness for C7 at a concrete profile with an existing key file. -/
theorem apply_returns_summary_witness :
    (apply_identity (fun _ => true) "/home/u" "linux"
        (Profile.toRecord ⟨"Work", "Ada", "ada@example.com", "/home/u/.ssh/id"⟩)).outcome =
      .ok ⟨"Work", "Ada", "ada@example.com"⟩ :=
  apply_returns_summary (fun _ => true) "/home/u" "linux"
    ⟨"Work", "Ada", "ada@example.com", "/home/u/.ssh/id"⟩ rfl

/-- C8 counterexample: a persisted record holding only a `name` field is
returned by `load_identities` exactly as stored — its `git_name` and
`ssh_key` fields are still absent after the load, not defaulted to the empty
string. -/
theorem load_missing_fields_cex :
    load_identities (.json (.obj [("identities", .arr [.obj [("name", .str "solo")]])])) =
      .ok (.arr [.obj [("name", .str "solo")]],
           .json (.obj [("identities", .arr [.obj [("name", .str "solo")]])]))
    ∧ lookupField [("name", Json.str "solo")] "git_name" = none
    ∧ lookupField [("name", Json.str "solo")] "ssh_key" = none :=
  ⟨rfl, rfl, rfl⟩

/-- C8 amended: `load_identities` returns every persisted record exactly as
stored, with no defaulting of absent fields (the empty-string defaults live
only in the card widgets' display code), and `apply_identity` on a record
missing its fields raises `KeyError` rather than seeing empty strings. -/
theorem load_no_field_defaulting (r : Json) (pe : String → Bool) (home platform : String) :
    load_identities (.json (.obj [("identities", .arr [r])])) =
      .ok (.arr [r], .json (.obj [("identities", .arr [r])]))
    ∧ (apply_identity pe home platform [("name", .str "solo")]).outcome =
        .error (.keyError "ssh_key") :=
  ⟨rfl, rfl⟩

/-- C9: loading with no backing file writes the empty document
`{"identities": []}` and returns the empty collection; a second load on the
resulting file returns the same empty collection and leaves the file
unchanged — the bootstrap is idempotent. -/
theorem load_bootstrap_idempotent :
    load_identities .absent = .ok (.arr [], .json emptyDoc)
    ∧ load_identities (.json emptyDoc) = .ok (.arr [], .json emptyDoc)
    ∧ emptyDoc = .obj [("identities", .arr [])] :=
  ⟨rfl, rfl, rfl⟩

/-- C10: the name-set line `apply_identity` hands to `run` is built by
verbatim interpolation with no escaping — for every profile with an existing
key file it is exactly `git config --global user.name "` ++ `git_name` ++
`"`, character-for-character; a `git_name` holding a double quote therefore
yields a command line with three quote characters, altering the quoting
structure of the issued command. -/
theorem apply_verbatim_command_text (pe : String → Bool) (home platform : String)
    (p : Profile) (h : pe (expanduser home p.ssh_key) = true) :
    ("git config --global user.name \"" ++ p.git_name ++ "\"")
        ∈ (apply_identity pe home platform p.toRecord).commands
    ∧ ("git config --global user.name \"" ++ "Ada \" Lovelace" ++ "\"").data.count '"' = 3 := by
  refine ⟨?_, by decide⟩
  rw [apply_toRecord]
  by_cases hp : platform = "win32" <;> simp [h, hp, gitNameCmd]

/-- Witness for C10 at a concrete profile whose `git_name` contains a double
quote. -/
theorem apply_verbatim_command_text_witness :
    ("git config --global user.name \"" ++ "Ada \" Lovelace" ++ "\"")
        ∈ (apply_identity (fun _ => true) "/home/u" "linux"
            (Profile.toRecord ⟨"Q", "Ada \" Lovelace", "ada@example.com", "/k"⟩)).commands
    ∧ ("git config --global user.name \"" ++ "Ada \" Lovelace" ++ "\"").data.count '"' = 3 :=
  apply_verbatim_command_text (fun _ => true) "/home/u" "linux"
    ⟨"Q", "Ada \" Lovelace", "ada@example.com", "/k"⟩ rfl

end GitIdentitySwitcher
